import Mathlib

/-!
# Verification of the trello-mcp request pipeline

Shallow embedding of the core request pipeline of the `trello-mcp`
repository: the memory cache wrapper (`src/core/memory-cache.ts`), the
Trello client's request executor and statistics (`src/trello/client.ts`),
the bulk tools (`src/tools/bulk-card-tools.ts`), and the rate-limiter
wrappers (`src/trello/rate-limiter.ts`) together with the documented
contract of the `bottleneck` scheduling library they delegate to.

Time is modelled as an abstract `Nat` clock (`now`), transports as
explicit functions returning `Except`, and JavaScript `Math.round` on
non-negative rationals as exact rational rounding.
-/

namespace TrelloMCP

/-- JavaScript `Math.round (num / den)` for non-negative `num` and positive
`den`: round half up, i.e. `⌊num/den + 1/2⌋ = (2*num + den) / (2*den)` in
integer division. -/
def jsRound (num den : Nat) : Nat :=
  (2 * num + den) / (2 * den)

/-! ## Memory cache (`src/core/memory-cache.ts` over `node-cache`)

`MemoryCache` wraps a `NodeCache` store.  An entry's `expiresAt` is
`none` when the entry has no TTL (node-cache internal expiry timestamp
`0`); `node-cache` treats an entry as live iff it has no expiry or the
current time is before the expiry timestamp.  A per-call `ttl` of `0`
means "no TTL"; a `ttl` argument that is absent means "use the
configured `stdTTL`".  Capacity (`maxKeys`) and the background sweep
only remove entries and are not needed by the claims below. -/

structure CacheEntry (V : Type) where
  value : V
  expiresAt : Option Nat
  deriving Repr, DecidableEq

/-- State of the `MemoryCache` singleton: the underlying node-cache
entries, the wrapper's own hit/miss counters, and the configured
`stdTTL` (from `config.cache.ttl`). -/
structure MemCache (V : Type) where
  entries : List (String × CacheEntry V)
  hits : Nat
  misses : Nat
  stdTTL : Nat
  deriving Repr, DecidableEq

/-- Is an entry live at time `now`?  (node-cache: live iff no expiry
timestamp or `now` is before it.) -/
def entryLive (now : Nat) (e : CacheEntry V) : Bool :=
  match e.expiresAt with
  | none => true
  | some t => now < t

/-- The raw node-cache lookup: the stored value, if present and unexpired. -/
def rawGet (c : MemCache V) (now : Nat) (key : String) : Option V :=
  match c.entries.lookup key with
  | some e => if entryLive now e then some e.value else none
  | none => none

/-- `MemoryCache.get` (memory-cache.ts lines 65-77): looks the key up and
increments the wrapper's hit or miss counter accordingly. -/
def memGet (c : MemCache V) (now : Nat) (key : String) :
    Option V × MemCache V :=
  match rawGet c now key with
  | some v => (some v, { c with hits := c.hits + 1 })
  | none => (none, { c with misses := c.misses + 1 })

/-- The underlying `NodeCache.set` with an explicit ttl argument
(`none` = argument absent, so the configured `stdTTL` applies; a ttl of
`0` stores the entry without expiry). -/
def nodeSet (c : MemCache V) (now : Nat) (key : String) (v : V)
    (ttl : Option Nat) : MemCache V :=
  let effectiveTtl := ttl.getD c.stdTTL
  let entry : CacheEntry V :=
    { value := v
      expiresAt := if effectiveTtl = 0 then none else some (now + effectiveTtl) }
  { c with entries := (key, entry) :: c.entries.filter (fun p => p.1 ≠ key) }

/-- `MemoryCache.set` (memory-cache.ts lines 82-92): forwards
`this.cache.set(key, value, ttl || 0)` — the ttl argument passed down is
always present, and absent/zero ttl becomes `0` (no expiry). -/
def memSet (c : MemCache V) (now : Nat) (key : String) (v : V)
    (ttl : Option Nat) : MemCache V :=
  nodeSet c now key v (some (ttl.getD 0))

/-- `MemoryCache.getOrSet` (memory-cache.ts lines 154-174): try `get`
first; on a miss run the supplier (`fn`, modelled as an `Except` value),
cache its result via `set` on success, and rethrow its error on failure.
Returns the result, the new cache state, and how many times the supplier
was invoked. -/
def getOrSet (c : MemCache V) (now : Nat) (key : String)
    (fn : Except E V) (ttl : Option Nat) :
    Except E V × MemCache V × Nat :=
  match memGet c now key with
  | (some cached, c') => (.ok cached, c', 0)
  | (none, c') =>
    match fn with
    | .ok r => (.ok r, memSet c' now key r ttl, 1)
    | .error e => (.error e, c', 1)

/-! ## Trello client (`src/trello/client.ts`)

The request executor `TrelloClient.makeRequest`.  The transport
(`executeRequest`, one `fetch` per scheduled job) is modelled as a
function from the attempt index to an `Except`; JavaScript truthiness of
the `result` value (used by the cache-population guard
`method === 'GET' && useCache && result`) is a parameter; wall-clock
durations (`Date.now() - startTime`) are abstracted to one `duration`
parameter, which only feeds `averageResponseTime` and never the
counters. -/

/-- The HTTP methods of `ApiRequestOptions.method`. -/
inductive Method
  | GET | POST | PUT | DELETE
  deriving Repr, DecidableEq

/-- The method strings used when building the cache key. -/
def methodStr : Method → String
  | .GET => "GET"
  | .POST => "POST"
  | .PUT => "PUT"
  | .DELETE => "DELETE"

/-- The priority tiers of `ApiRequestOptions.priority`. -/
inductive ReqPriority
  | high | normal | low
  deriving Repr, DecidableEq

/-- `ApiRequestOptions` (client.ts lines 22-29) with the defaults
destructured at the top of `makeRequest` (lines 116-123).  `body` is the
JSON serialization of the request body, `none` when the body is absent
or falsy (the cache-key builder tests `if (body)`). -/
structure ApiRequestOptions where
  method : Method := .GET
  body : Option String := none
  useCache : Bool := true
  cacheTtl : Option Nat := none
  priority : ReqPriority := .normal
  retries : Nat := 3
  deriving Repr, DecidableEq

/-- `TrelloClientStats` (client.ts lines 31-38). -/
structure TrelloClientStats where
  totalRequests : Nat
  successfulRequests : Nat
  failedRequests : Nat
  cacheHits : Nat
  cacheMisses : Nat
  averageResponseTime : Nat
  deriving Repr, DecidableEq

/-- The zero-initialised statistics (client.ts lines 52-59). -/
def initialStats : TrelloClientStats :=
  { totalRequests := 0, successfulRequests := 0, failedRequests := 0
    cacheHits := 0, cacheMisses := 0, averageResponseTime := 0 }

/-- `TrelloClient.updateStats` (client.ts lines 294-305): increment
`totalRequests`, increment exactly one of `successfulRequests` /
`failedRequests`, and recompute the running mean
`Math.round((avg * (n-1) + duration) / n)`. -/
def updateStats (success : Bool) (duration : Nat)
    (s : TrelloClientStats) : TrelloClientStats :=
  let total := s.totalRequests + 1
  let totalTime := s.averageResponseTime * (total - 1) + duration
  { s with
    totalRequests := total
    successfulRequests := s.successfulRequests + (if success then 1 else 0)
    failedRequests := s.failedRequests + (if success then 0 else 1)
    averageResponseTime := jsRound totalTime total }

/-- `TrelloClient.generateCacheKey` (client.ts lines 283-289):
`[method, endpoint]`, plus `JSON.stringify(body)` when the body is
truthy, joined with `'|'`. -/
def generateCacheKey (method endpoint : String) (body : Option String) :
    String :=
  match body with
  | none => method ++ "|" ++ endpoint
  | some b => method ++ "|" ++ endpoint ++ "|" ++ b

/-- The cache key `makeRequest` derives for a request descriptor
(client.ts line 126). -/
def derivedCacheKey (endpoint : String) (o : ApiRequestOptions) : String :=
  generateCacheKey (methodStr o.method) endpoint o.body

/-- The separator character never occurs in the string.  The methods and
Trello REST endpoints contain no `'|'`, which is what makes the joined
cache key collision-free in practice. -/
def barFree (s : String) : Prop := '|' ∉ s.data

/-- `barFree` lifted to the optional serialized body. -/
def optBarFree : Option String → Prop
  | none => True
  | some b => barFree b

instance (s : String) : Decidable (barFree s) := by
  unfold barFree; infer_instance

instance (b : Option String) : Decidable (optBarFree b) := by
  cases b <;> (unfold optBarFree; infer_instance)

/-- The Bottleneck priority number each `priority` tier is scheduled at:
`scheduleHighPriority` uses 9, `scheduleLowPriority` uses 1, and the
plain `schedule` default is `options?.priority || 5`
(client.ts lines 141-150, rate-limiter.ts lines 118, 137, 144). -/
def scheduledPriority : ReqPriority → Nat
  | .high => 9
  | .normal => 5
  | .low => 1

/-- The retry loop of `makeRequest` (client.ts lines 152-200):
`while (attempt <= retries)` schedule one job (one transport call); on
success exit with the value; on failure remember the error, advance
`attempt` and loop.  `fuel` is `retries + 1 - attempt`, the number of
iterations the guard still allows.  Returns the successful value (if
any), the number of transport calls made, and the last error. -/
def retryLoop (transport : Nat → Except String T) :
    Nat → Nat → Option String → Option T × Nat × Option String
  | _, 0, lastErr => (none, 0, lastErr)
  | attempt, fuel + 1, lastErr =>
    match transport attempt with
    | .ok v => (some v, 1, lastErr)
    | .error e =>
      let (r, n, le) := retryLoop transport (attempt + 1) fuel (some e)
      (r, n + 1, le)

/-- The error message built after retry exhaustion
(client.ts lines 206-208). -/
def detailedErrorMsg (endpoint : String) (retries : Nat)
    (lastErr : Option String) : String :=
  "Trello API request failed after " ++ toString retries ++ " attempts: "
    ++ endpoint ++ " - " ++ lastErr.getD "Unknown error"

/-- The scheduling/retry phase of `makeRequest` (client.ts lines
140-218), entered when the cache did not answer.  Returns the result,
the updated statistics, the updated cache, and the number of jobs
submitted to the rate limiter (each of which performs exactly one
transport call).

Shape of the source: the retry loop runs; on success `updateStats(true)`
is called, then the cache is populated when
`method === 'GET' && useCache && result`; after retry exhaustion
`updateStats(false)` is called (line 203) and a detailed error is thrown
(line 213), which the enclosing `catch` (line 214) intercepts, calling
`updateStats(false)` a second time (line 215) before rethrowing. -/
def makeRequestLoop (transport : Nat → Except String T) (truthy : T → Bool)
    (endpoint : String) (o : ApiRequestOptions) (now duration : Nat)
    (stats : TrelloClientStats) (c : MemCache T) :
    Except String T × TrelloClientStats × MemCache T × Nat :=
  match retryLoop transport 0 (o.retries + 1) none with
  | (some v, calls, _) =>
    let c' :=
      if o.method == .GET && o.useCache && truthy v then
        memSet c now (derivedCacheKey endpoint o) v o.cacheTtl
      else c
    (.ok v, updateStats true duration stats, c', calls)
  | (none, calls, lastErr) =>
    (.error (detailedErrorMsg endpoint o.retries lastErr),
     updateStats false duration (updateStats false duration stats), c, calls)

/-- The cache-lookup phase of `makeRequest` (client.ts lines 125-138):
for a GET with `useCache`, a hit bumps `stats.cacheHits` and returns the
cached value with no job scheduled; a miss bumps `stats.cacheMisses` and
falls through to the scheduling/retry phase. -/
def makeRequest (transport : Nat → Except String T) (truthy : T → Bool)
    (endpoint : String) (o : ApiRequestOptions) (now duration : Nat)
    (stats : TrelloClientStats) (c : MemCache T) :
    Except String T × TrelloClientStats × MemCache T × Nat :=
  if o.method == .GET && o.useCache then
    match memGet c now (derivedCacheKey endpoint o) with
    | (some v, c') =>
      (.ok v, { stats with cacheHits := stats.cacheHits + 1 }, c', 0)
    | (none, c') =>
      makeRequestLoop transport truthy endpoint o now duration
        { stats with cacheMisses := stats.cacheMisses + 1 } c'
  else makeRequestLoop transport truthy endpoint o now duration stats c

/-! ## Rate limiter (`src/trello/rate-limiter.ts` over `bottleneck`)

The scheduler itself is the `bottleneck` npm dependency; the repository
configures it and wraps `schedule`.  The dispatch and reservoir
behaviour below is modelled from Bottleneck's documented contract:
* job `priority` ranges over 0..9 (default 5) and jobs with a LOWER
  priority number are executed first, ties in submission (FIFO) order;
* a job of weight `w` is admitted only when the reservoir holds at
  least `w`, which admission then consumes; consumed weight is never
  refunded on completion;
* every `reservoirRefreshInterval` the reservoir value is set to
  `reservoirRefreshAmount` (an overwrite, not an increment).
The repository submits priority 9 from `scheduleHighPriority`, priority
1 from `scheduleLowPriority`, and `options?.priority || 5` from plain
`schedule` (rate-limiter.ts lines 118, 137, 144), and configures
`reservoir: 50`, `reservoirRefreshAmount: 25` (lines 37-38). -/

/-- A queued Bottleneck job: its priority number and its submission
sequence number. -/
structure BJob where
  priority : Nat
  seq : Nat
  deriving Repr, DecidableEq

/-- Which of two queued jobs Bottleneck dispatches first: the lower
priority number wins; within a priority, the earlier submission. -/
def firstDispatched (a b : BJob) : BJob :=
  if b.priority < a.priority ∨ (b.priority = a.priority ∧ b.seq < a.seq)
  then b else a

/-- The queued job Bottleneck dispatches next, among all eligible queued
jobs. -/
def dispatchFirst : List BJob → Option BJob
  | [] => none
  | j :: js => some (js.foldl firstDispatched j)

/-- The initial reservoir value configured by the repository
(rate-limiter.ts line 37). -/
def reservoirInitial : Int := 50

/-- The configured `reservoirRefreshAmount` (rate-limiter.ts line 38). -/
def reservoirRefreshAmount : Int := 25

/-- Reservoir events: a job admission consuming `weight`, or a periodic
refresh tick. -/
inductive ResEvent
  | consume (weight : Nat)
  | refresh
  deriving Repr, DecidableEq

/-- One reservoir transition (Bottleneck's documented contract, see the
section comment): admission happens only when the level covers the
weight; the refresh tick sets the level to `reservoirRefreshAmount`. -/
def resStep (level : Int) : ResEvent → Int
  | .consume w => if (w : Int) ≤ level then level - w else level
  | .refresh => reservoirRefreshAmount

/-- The reservoir level after a sequence of admissions and refreshes. -/
def resRun (level : Int) (evs : List ResEvent) : Int :=
  evs.foldl resStep level

/-- The refill operation as the spec words it: additive, then capped at
the configured ceiling.  Stated only to be compared with `resStep`. -/
def specAdditiveCappedRefill (ceiling amount level : Int) : Int :=
  min (level + amount) ceiling

/-! ## Bulk executors (`src/trello/client.ts`, `src/tools/bulk-card-tools.ts`) -/

/-- `xs` cut into consecutive chunks of `n`; `fuel` bounds the recursion
and is instantiated with `xs.length`. -/
def chunksAux (n : Nat) : Nat → List α → List (List α)
  | 0, _ => []
  | _ + 1, [] => []
  | fuel + 1, x :: xs =>
    (x :: xs).take n :: chunksAux n fuel ((x :: xs).drop n)

/-- The waves of size `n` a bulk operation processes: `slice(i, i + n)`
for `i = 0, n, 2n, ...` (the `for` loops at client.ts line 564 and
bulk-card-tools.ts lines 196, 299). -/
def chunksOf (n : Nat) (xs : List α) : List (List α) :=
  chunksAux n xs.length xs

/-- One wave of `bulkCreateCards` (client.ts lines 565-578):
`Promise.allSettled` over the batch; fulfilled values are kept in order,
rejected ones are only logged and dropped. -/
def settleCreateBatch (create : α → Except String β) (batch : List α) :
    List β :=
  batch.filterMap fun card => (create card).toOption

/-- `TrelloClient.bulkCreateCards` (client.ts lines 556-588): process
the inputs in waves of `batchSize = 5` (with a small delay between
waves, irrelevant to the collected results) and return only the created
cards; failures are not collected. -/
def bulkCreateCards (create : α → Except String β) (cards : List α) :
    List β :=
  ((chunksOf 5 cards).map (settleCreateBatch create)).flatten

/-- The `failedCards` entry a rejected move produces
(bulk-card-tools.ts lines 209-212): the originating `cardId` paired with
the error message. -/
def moveFailureOf (move : String → Except String β) (id : String) :
    Option (String × String) :=
  match move id with
  | .error e => some (id, e)
  | .ok _ => none

/-- One wave of the bulk move loop (bulk-card-tools.ts lines 196-220):
`Promise.allSettled` over the batch; fulfilled values go to
`movedCards`, rejections to `failedCards` as `{ cardId, error }`. -/
def settleMoveBatch (move : String → Except String β)
    (batch : List String) : List β × List (String × String) :=
  (batch.filterMap fun id => (move id).toOption,
   batch.filterMap (moveFailureOf move))

/-- The accumulated `movedCards` and `failedCards` of the bulk move loop
across all waves. -/
def bulkMoveOutcomes (move : String → Except String β)
    (ids : List String) : List β × List (String × String) :=
  (((chunksOf 5 ids).map fun b => (settleMoveBatch move b).1).flatten,
   ((chunksOf 5 ids).map fun b => (settleMoveBatch move b).2).flatten)

/-- A tool result: `this.error(message)` or a successful report. -/
inductive ToolOutcome (ρ : Type)
  | err (message : String)
  | ok (report : ρ)
  deriving Repr, DecidableEq

/-- A card at the `bulk_create_cards` tool boundary: the fields its
validation loop inspects (`name`, optional `dueDate`). -/
structure CardInput where
  name : String
  dueDate : Option String := none
  deriving Repr, DecidableEq

/-- JavaScript `String.prototype.trim`: strip leading and trailing
whitespace (modelled over the character list). -/
def jsTrim (s : String) : String :=
  ⟨((s.data.dropWhile Char.isWhitespace).reverse.dropWhile
      Char.isWhitespace).reverse⟩

/-- The per-card validation loop (bulk-card-tools.ts lines 68-80): the
first invalid card (1-based index `i + 1`) produces an error message
when its name is missing or whitespace (`!card.name || !card.name.trim()`);
host `Date` parsing is modelled by the `validDate` predicate. -/
def validateCards (validDate : String → Bool) :
    List CardInput → Nat → Option String
  | [], _ => none
  | card :: rest, i =>
    if jsTrim card.name = "" then
      some ("Kart " ++ toString (i + 1) ++ ": Kart adı gerekli")
    else
      match card.dueDate with
      | some d =>
        if validDate d then validateCards validDate rest (i + 1)
        else some ("Kart " ++ toString (i + 1) ++ ": Geçersiz tarih formatı")
      | none => validateCards validDate rest (i + 1)

/-- The structured content of the `bulk_create_cards` result message
(bulk-card-tools.ts lines 119-146): the created cards, both counts, and
the rounded success ratio (JavaScript
`Math.round((successCount / total) * 100)`, modelled as exact rational
rounding).  The tool has no per-item failure data to report — failures
were dropped inside `bulkCreateCards` — and its message only advises
checking the logs. -/
structure BulkCreateReport (β : Type) where
  created : List β
  successCount : Nat
  failedCount : Nat
  total : Nat
  successRatio : Nat
  deriving Repr, DecidableEq

/-- `BulkCreateCardsTool.execute` (bulk-card-tools.ts lines 55-151):
the validations in source order — empty input, the 50-card cap, the
per-card checks — then the bulk creation.  Returns the outcome and the
number of `createCard` calls made (one per input card when the batch
runs; none when it is rejected). -/
def bulkCreateExecute (create : CardInput → Except String β)
    (validDate : String → Bool) (cards : List CardInput) :
    ToolOutcome (BulkCreateReport β) × Nat :=
  if cards.length = 0 then (.err "En az bir kart bilgisi gerekli", 0)
  else if 50 < cards.length then
    (.err "Tek seferde en fazla 50 kart oluşturabilirsiniz", 0)
  else
    match validateCards validDate cards 0 with
    | some msg => (.err msg, 0)
    | none =>
      let created := bulkCreateCards create cards
      (.ok { created := created
             successCount := created.length
             failedCount := cards.length - created.length
             total := cards.length
             successRatio := jsRound (100 * created.length) cards.length },
       cards.length)

/-- The structured content of the `bulk_move_cards` result message
(bulk-card-tools.ts lines 222-251): moved cards, the failures each
paired with its `cardId` and error message, both counts, and the rounded
success ratio. -/
structure BulkMoveReport (β : Type) where
  moved : List β
  failures : List (String × String)
  successCount : Nat
  failedCount : Nat
  total : Nat
  successRatio : Nat
  deriving Repr, DecidableEq

/-- `BulkMoveCardsTool.execute` (bulk-card-tools.ts lines 178-258):
empty-input check, the 50-card cap, then the wave loop; one `moveCard`
call per id when the batch runs. -/
def bulkMoveExecute (move : String → Except String β)
    (ids : List String) : ToolOutcome (BulkMoveReport β) × Nat :=
  if ids.length = 0 then (.err "En az bir kart ID\x27si gerekli", 0)
  else if 50 < ids.length then
    (.err "Tek seferde en fazla 50 kart taşıyabilirsiniz", 0)
  else
    let (moved, failed) := bulkMoveOutcomes move ids
    (.ok { moved := moved
           failures := failed
           successCount := moved.length
           failedCount := failed.length
           total := ids.length
           successRatio := jsRound (100 * moved.length) ids.length },
     ids.length)

end TrelloMCP

namespace TrelloMCP

/-! ### Theorems about the cache -/

/-- C9: `getOrSet` returns the cached value without invoking the supplier
when the key is live; on a miss it invokes the supplier exactly once and,
when the supplier fails, propagates the error and stores nothing. -/
theorem C9_getOrSet_contract {V E : Type} (c : MemCache V) (now : Nat)
    (key : String) (fn : Except E V) (ttl : Option Nat) :
    (∀ v, rawGet c now key = some v →
      getOrSet c now key fn ttl =
        (.ok v, { c with hits := c.hits + 1 }, 0)) ∧
    (rawGet c now key = none →
      (getOrSet c now key fn ttl).2.2 = 1 ∧
      (∀ e, fn = .error e →
        getOrSet c now key fn ttl =
          (.error e, { c with misses := c.misses + 1 }, 1))) := by
  constructor
  · intro v hv
    simp [getOrSet, memGet, hv]
  · intro hmiss
    constructor
    · cases fn <;> simp [getOrSet, memGet, hmiss]
    · intro e he
      subst he
      simp [getOrSet, memGet, hmiss]

/-- Witness for C9 at a concrete cache, key and failing supplier. -/
theorem C9_getOrSet_contract_witness :
    (∀ v, rawGet (⟨[("k", ⟨7, none⟩)], 0, 0, 300⟩ : MemCache Nat) 5 "k" = some v →
      getOrSet (⟨[("k", ⟨7, none⟩)], 0, 0, 300⟩ : MemCache Nat) 5 "k"
          (Except.error "boom" : Except String Nat) none =
        (.ok v, ⟨[("k", ⟨7, none⟩)], 1, 0, 300⟩, 0)) ∧
    (rawGet (⟨[], 0, 0, 300⟩ : MemCache Nat) 5 "k" = none →
      (getOrSet (⟨[], 0, 0, 300⟩ : MemCache Nat) 5 "k"
          (Except.error "boom" : Except String Nat) none).2.2 = 1 ∧
      (∀ e, (Except.error "boom" : Except String Nat) = .error e →
        getOrSet (⟨[], 0, 0, 300⟩ : MemCache Nat) 5 "k"
            (Except.error "boom" : Except String Nat) none =
          (.error e, ⟨[], 0, 1, 300⟩, 1))) :=
  ⟨fun v hv => (C9_getOrSet_contract ⟨[("k", ⟨7, none⟩)], 0, 0, 300⟩ 5 "k"
      (Except.error "boom") none).1 v hv,
   fun hmiss => (C9_getOrSet_contract ⟨[], 0, 0, 300⟩ 5 "k"
      (Except.error "boom") none).2 hmiss⟩

/-- C10: `MemoryCache.set` with an absent ttl argument or an explicit
ttl of `0` stores the entry without any expiry timestamp, so it is never
absent at any later time by TTL; and because the wrapper always passes
`ttl || 0` down, the configured default `stdTTL` never influences the
stored entries, whatever the ttl argument. -/
theorem C10_set_no_default_ttl {V : Type} (c : MemCache V) (now : Nat)
    (key : String) (v : V) (ttl : Option Nat)
    (h : ttl = none ∨ ttl = some 0) :
    (memSet c now key v ttl).entries.lookup key = some ⟨v, none⟩ ∧
    (∀ later : Nat, rawGet (memSet c now key v ttl) later key = some v) ∧
    (∀ s : Nat, (memSet { c with stdTTL := s } now key v ttl).entries =
      (memSet c now key v ttl).entries) := by
  have hd : ttl.getD 0 = 0 := by rcases h with h | h <;> simp [h]
  refine ⟨?_, ?_, ?_⟩
  · simp [memSet, nodeSet, hd]
  · intro later
    simp [rawGet, memSet, nodeSet, hd, entryLive]
  · intro s
    simp [memSet, nodeSet]

/-! ### Theorems about the request executor -/

/-- If the transport fails on the `k` attempts starting at `attempt` and
succeeds on attempt `attempt + k`, and the loop guard allows at least
`k + 1` further iterations, the retry loop returns that success after
exactly `k + 1` transport calls. -/
theorem retryLoop_eventual_ok {T : Type} (transport : Nat → Except String T)
    (v : T) :
    ∀ (k attempt fuel : Nat) (lastErr : Option String),
      (∀ i, i < k → ∃ e, transport (attempt + i) = .error e) →
      transport (attempt + k) = .ok v → k < fuel →
      (retryLoop transport attempt fuel lastErr).1 = some v ∧
      (retryLoop transport attempt fuel lastErr).2.1 = k + 1 := by
  intro k
  induction k with
  | zero =>
    intro attempt fuel lastErr _ hsucc hfuel
    obtain ⟨f, rfl⟩ := Nat.exists_eq_add_of_lt hfuel
    rw [Nat.add_zero] at hsucc
    simp [retryLoop, hsucc]
  | succ k ih =>
    intro attempt fuel lastErr hfail hsucc hfuel
    obtain ⟨e, he⟩ := hfail 0 (Nat.succ_pos k)
    rw [Nat.add_zero] at he
    cases fuel with
    | zero => omega
    | succ f =>
      have hfail' : ∀ i, i < k → ∃ e, transport (attempt + 1 + i) = .error e := by
        intro i hi
        have := hfail (i + 1) (by omega)
        rwa [show attempt + (i + 1) = attempt + 1 + i by omega] at this
      have hsucc' : transport (attempt + 1 + k) = .ok v := by
        rwa [show attempt + (k + 1) = attempt + 1 + k by omega] at hsucc
      have ih' := ih (attempt + 1) f (some e) hfail' hsucc' (by omega)
      rcases heq : retryLoop transport (attempt + 1) f (some e) with ⟨r, n, le⟩
      rw [heq] at ih'
      simp only at ih'
      simp [retryLoop, he, heq, ih'.1, ih'.2]

/-- C1 (refuted by the code): the statistics are NOT updated exactly once
per logical request on the failure path.  A single `makeRequest` call
with `retries = 0` against an always-failing transport leaves
`totalRequests = 2` and `failedRequests = 2`: `updateStats(false)` runs
at the retry-exhaustion site (client.ts line 203) and again in the
enclosing `catch` (line 215) for the same logical request.  Exactly one
job was scheduled. -/
theorem C1_failure_path_counts_twice :
    (makeRequest (T := Unit) (fun _ => .error "boom") (fun _ => true)
      "/cards" { method := .POST, useCache := false, retries := 0 } 0 5
      initialStats ⟨[], 0, 0, 300⟩).2.1 =
      { totalRequests := 2, successfulRequests := 0, failedRequests := 2,
        cacheHits := 0, cacheMisses := 0, averageResponseTime := 5 } ∧
    (makeRequest (T := Unit) (fun _ => .error "boom") (fun _ => true)
      "/cards" { method := .POST, useCache := false, retries := 0 } 0 5
      initialStats ⟨[], 0, 0, 300⟩).2.2.2 = 1 :=
  ⟨rfl, rfl⟩

/-- C4: with `retries = N ≥ 1`, a transport that fails the first `N - 1`
attempts and succeeds on attempt `N - 1` makes the executor return the
success, scheduling `N` jobs, and the statistics record exactly one
request and one success and no failure (given the request is not
answered by the cache). -/
theorem C4_retry_eventual_success {T : Type}
    (transport : Nat → Except String T) (truthy : T → Bool)
    (endpoint : String) (o : ApiRequestOptions) (now duration : Nat)
    (stats : TrelloClientStats) (c : MemCache T) (N : Nat) (v : T)
    (hN : 1 ≤ N) (hret : o.retries = N)
    (hfail : ∀ i, i < N - 1 → ∃ e, transport i = .error e)
    (hsucc : transport (N - 1) = .ok v)
    (hmiss : rawGet c now (derivedCacheKey endpoint o) = none) :
    (makeRequest transport truthy endpoint o now duration stats c).1 = .ok v ∧
    (makeRequest transport truthy endpoint o now duration stats c).2.1.totalRequests
      = stats.totalRequests + 1 ∧
    (makeRequest transport truthy endpoint o now duration stats c).2.1.successfulRequests
      = stats.successfulRequests + 1 ∧
    (makeRequest transport truthy endpoint o now duration stats c).2.1.failedRequests
      = stats.failedRequests ∧
    (makeRequest transport truthy endpoint o now duration stats c).2.2.2 = N := by
  have hloop := retryLoop_eventual_ok transport v (N - 1) 0 (o.retries + 1) none
    (by intro i hi; simpa using hfail i hi)
    (by simpa using hsucc) (by omega)
  rcases heq : retryLoop transport 0 (o.retries + 1) none with ⟨r, n, le⟩
  rw [heq] at hloop
  simp only at hloop
  have hr : r = some v := hloop.1
  have hn : n = N := by have := hloop.2; omega
  subst hr
  have hloopEq : ∀ (s : TrelloClientStats) (c₀ : MemCache T),
      (makeRequestLoop transport truthy endpoint o now duration s c₀).1 = .ok v ∧
      (makeRequestLoop transport truthy endpoint o now duration s c₀).2.1
        = updateStats true duration s ∧
      (makeRequestLoop transport truthy endpoint o now duration s c₀).2.2.2 = n := by
    intro s c₀
    simp [makeRequestLoop, heq]
  by_cases hb : (o.method == Method.GET && o.useCache) = true
  · have hget : memGet c now (derivedCacheKey endpoint o) =
        (none, { c with misses := c.misses + 1 }) := by
      simp [memGet, hmiss]
    obtain ⟨h1, h2, h3⟩ := hloopEq
      { stats with cacheMisses := stats.cacheMisses + 1 }
      { c with misses := c.misses + 1 }
    simp [makeRequest, hb, hget, h1, h2, h3, updateStats, hn]
  · obtain ⟨h1, h2, h3⟩ := hloopEq stats c
    simp [makeRequest, hb, h1, h2, h3, updateStats, hn]

/-- Witness for C4: `retries = 2`, transport failing once then
succeeding, starting from the empty cache and zero statistics. -/
theorem C4_retry_eventual_success_witness :
    (makeRequest (T := Nat)
      (fun i => if i = 0 then .error "transient" else .ok 99) (fun _ => true)
      "/boards" { method := .GET, useCache := true, retries := 2 } 0 7
      initialStats ⟨[], 0, 0, 300⟩).1 = .ok 99 ∧
    (makeRequest (T := Nat)
      (fun i => if i = 0 then .error "transient" else .ok 99) (fun _ => true)
      "/boards" { method := .GET, useCache := true, retries := 2 } 0 7
      initialStats ⟨[], 0, 0, 300⟩).2.1.totalRequests = initialStats.totalRequests + 1 ∧
    (makeRequest (T := Nat)
      (fun i => if i = 0 then .error "transient" else .ok 99) (fun _ => true)
      "/boards" { method := .GET, useCache := true, retries := 2 } 0 7
      initialStats ⟨[], 0, 0, 300⟩).2.1.successfulRequests = initialStats.successfulRequests + 1 ∧
    (makeRequest (T := Nat)
      (fun i => if i = 0 then .error "transient" else .ok 99) (fun _ => true)
      "/boards" { method := .GET, useCache := true, retries := 2 } 0 7
      initialStats ⟨[], 0, 0, 300⟩).2.1.failedRequests = initialStats.failedRequests ∧
    (makeRequest (T := Nat)
      (fun i => if i = 0 then .error "transient" else .ok 99) (fun _ => true)
      "/boards" { method := .GET, useCache := true, retries := 2 } 0 7
      initialStats ⟨[], 0, 0, 300⟩).2.2.2 = 2 :=
  C4_retry_eventual_success
    (fun i => if i = 0 then .error "transient" else .ok 99) (fun _ => true)
    "/boards" { method := .GET, useCache := true, retries := 2 } 0 7
    initialStats ⟨[], 0, 0, 300⟩ 2 99 (by omega) rfl
    (by intro i hi; exact ⟨"transient", by interval_cases i; rfl⟩)
    (by rfl) (by rfl)

theorem key_data_none (m e : String) :
    (generateCacheKey m e none).data = m.data ++ '|' :: e.data := by
  have hbar : "|".data = ['|'] := rfl
  simp [generateCacheKey, String.data_append, hbar]

theorem key_data_some (m e b : String) :
    (generateCacheKey m e (some b)).data =
      m.data ++ '|' :: (e.data ++ '|' :: b.data) := by
  have hbar : "|".data = ['|'] := rfl
  simp [generateCacheKey, String.data_append, hbar]

/-- Splitting at a separator that occurs in neither prefix is
unambiguous. -/
theorem sep_append_inj :
    ∀ (xs xs' ys ys' : List Char), '|' ∉ xs → '|' ∉ xs' →
      xs ++ '|' :: ys = xs' ++ '|' :: ys' → xs = xs' ∧ ys = ys' := by
  intro xs
  induction xs with
  | nil =>
    intro xs' ys ys' _ hx' h
    cases xs' with
    | nil => simpa using h
    | cons c t =>
      simp only [List.nil_append, List.cons_append, List.cons.injEq] at h
      exact absurd (h.1 ▸ List.mem_cons_self c t) hx'
  | cons c t ih =>
    intro xs' ys ys' hx hx' h
    cases xs' with
    | nil =>
      simp only [List.cons_append, List.nil_append, List.cons.injEq] at h
      exact absurd (h.1 ▸ List.mem_cons_self c t) hx
    | cons c' t' =>
      simp only [List.cons_append, List.cons.injEq] at h
      obtain ⟨h1, h2⟩ := ih t' ys ys'
        (fun hm => hx (List.mem_cons_of_mem c hm))
        (fun hm => hx' (List.mem_cons_of_mem c' hm)) h.2
      exact ⟨by rw [h.1, h1], h2⟩

/-- The four method strings are `'|'`-free and pairwise distinct. -/
theorem methodStr_barFree (m : Method) : '|' ∉ (methodStr m).data := by
  cases m <;> decide

theorem methodStr_inj (m₁ m₂ : Method)
    (h : methodStr m₁ = methodStr m₂) : m₁ = m₂ := by
  cases m₁ <;> cases m₂ <;> first
    | rfl
    | exact absurd h (by decide)

/-- C7: the derived cache key is a pure function of method, endpoint and
serialized body — two descriptors agreeing on those but differing in any
cache-policy field (`useCache`, `cacheTtl`, `priority`, `retries`)
derive identical keys — and, whenever the endpoint and serialized body
contain no `'|'` separator, descriptors differing in method, endpoint or
body derive distinct keys. -/
theorem C7_cache_key_pure_function :
    (∀ (endpoint : String) (o₁ o₂ : ApiRequestOptions),
      o₁.method = o₂.method → o₁.body = o₂.body →
      derivedCacheKey endpoint o₁ = derivedCacheKey endpoint o₂) ∧
    (∀ (m₁ m₂ : Method) (e₁ e₂ : String) (b₁ b₂ : Option String),
      barFree e₁ → barFree e₂ → optBarFree b₁ → optBarFree b₂ →
      generateCacheKey (methodStr m₁) e₁ b₁ =
        generateCacheKey (methodStr m₂) e₂ b₂ →
      m₁ = m₂ ∧ e₁ = e₂ ∧ b₁ = b₂) := by
  constructor
  · intro endpoint o₁ o₂ hm hb
    simp [derivedCacheKey, hm, hb]
  · intro m₁ m₂ e₁ e₂ b₁ b₂ he₁ he₂ hb₁ hb₂ h
    have hdata := congrArg String.data h
    cases b₁ with
    | none =>
      cases b₂ with
      | none =>
        rw [key_data_none, key_data_none] at hdata
        obtain ⟨h1, h2⟩ := sep_append_inj _ _ _ _
          (methodStr_barFree m₁) (methodStr_barFree m₂) hdata
        exact ⟨methodStr_inj _ _ (String.ext h1), String.ext h2, rfl⟩
      | some b =>
        rw [key_data_none, key_data_some] at hdata
        obtain ⟨_, h2⟩ := sep_append_inj _ _ _ _
          (methodStr_barFree m₁) (methodStr_barFree m₂) hdata
        exact absurd (h2 ▸ List.mem_append_right e₂.data
          (List.mem_cons_self '|' b.data)) he₁
    | some b =>
      cases b₂ with
      | none =>
        rw [key_data_some, key_data_none] at hdata
        obtain ⟨_, h2⟩ := sep_append_inj _ _ _ _
          (methodStr_barFree m₁) (methodStr_barFree m₂) hdata
        exact absurd (h2 ▸ List.mem_append_right e₁.data
          (List.mem_cons_self '|' b.data)) he₂
      | some b' =>
        rw [key_data_some, key_data_some] at hdata
        obtain ⟨h1, h2⟩ := sep_append_inj _ _ _ _
          (methodStr_barFree m₁) (methodStr_barFree m₂) hdata
        obtain ⟨h3, h4⟩ := sep_append_inj _ _ _ _ he₁ he₂ h2
        exact ⟨methodStr_inj _ _ (String.ext h1), String.ext h3,
          by rw [String.ext h4]⟩

/-- Witness for C7: two descriptors for `GET /boards` differing only in
cache policy derive the same key, and the injectivity part applied at
`'|'`-free components. -/
theorem C7_cache_key_pure_function_witness :
    derivedCacheKey "/boards"
      { method := .GET, body := none, useCache := true,
        cacheTtl := none, priority := .normal, retries := 3 } =
    derivedCacheKey "/boards"
      { method := .GET, body := none, useCache := false,
        cacheTtl := some 60, priority := .high, retries := 0 } ∧
    (Method.GET = Method.GET ∧ "/boards" = "/boards" ∧
      (none : Option String) = none) :=
  ⟨C7_cache_key_pure_function.1 "/boards"
      { method := .GET, body := none, useCache := true,
        cacheTtl := none, priority := .normal, retries := 3 }
      { method := .GET, body := none, useCache := false,
        cacheTtl := some 60, priority := .high, retries := 0 } rfl rfl,
   C7_cache_key_pure_function.2 .GET .GET "/boards" "/boards" none none
      (by decide) (by decide) trivial trivial rfl⟩

/-- C6: a GET request with `useCache` whose key is live in the cache is
answered from the cache: the client's `cacheHits` counter increments,
the cache's own hit counter increments, the entries are untouched, and
no job is scheduled (so no transport call is made). -/
theorem C6_cache_hit_short_circuit {T : Type}
    (transport : Nat → Except String T) (truthy : T → Bool)
    (endpoint : String) (o : ApiRequestOptions) (now duration : Nat)
    (stats : TrelloClientStats) (c : MemCache T) (v : T)
    (hm : o.method = .GET) (hu : o.useCache = true)
    (hhit : rawGet c now (derivedCacheKey endpoint o) = some v) :
    makeRequest transport truthy endpoint o now duration stats c =
      (.ok v, { stats with cacheHits := stats.cacheHits + 1 },
       { c with hits := c.hits + 1 }, 0) := by
  simp [makeRequest, memGet, hm, hu, hhit]

/-- Witness for C6: a concrete GET answered by a live cache entry. -/
theorem C6_cache_hit_short_circuit_witness :
    makeRequest (T := Nat) (fun _ => .error "no transport") (fun _ => true)
      "/boards" { method := .GET, useCache := true } 3 7 initialStats
      ⟨[("GET|/boards", ⟨5, some 10⟩)], 0, 0, 300⟩ =
      (.ok 5, { initialStats with cacheHits := initialStats.cacheHits + 1 },
       ⟨[("GET|/boards", ⟨5, some 10⟩)], 1, 0, 300⟩, 0) :=
  C6_cache_hit_short_circuit (fun _ => .error "no transport") (fun _ => true)
    "/boards" { method := .GET, useCache := true } 3 7 initialStats
    ⟨[("GET|/boards", ⟨5, some 10⟩)], 0, 0, 300⟩ 5 rfl rfl (by rfl)

/-- Witness for C10 at a concrete cache and value, with the ttl argument
absent. -/
theorem C10_set_no_default_ttl_witness :
    (memSet (V := Nat) ⟨[], 0, 0, 300⟩ 11 "k" 42 none).entries.lookup "k" =
      some ⟨42, none⟩ ∧
    (∀ later : Nat,
      rawGet (memSet (V := Nat) ⟨[], 0, 0, 300⟩ 11 "k" 42 none) later "k" =
        some 42) ∧
    (∀ s : Nat,
      (memSet (V := Nat) ⟨([] : List (String × CacheEntry Nat)), 0, 0, s⟩
          11 "k" 42 none).entries =
      (memSet (V := Nat) ⟨[], 0, 0, 300⟩ 11 "k" 42 none).entries) :=
  C10_set_no_default_ttl ⟨[], 0, 0, 300⟩ 11 "k" 42 none (Or.inl rfl)

/-! ### Theorems about the rate limiter -/

/-- C2 (refuted by the code): with the `scheduleHighPriority` job
(Bottleneck priority 9) queued first and the `scheduleLowPriority` job
(Bottleneck priority 1) queued after it, Bottleneck dispatches the
low-priority-wrapper job first, because its documented contract runs the
LOWER priority number first — the wrappers pass inverted numbers. -/
theorem C2_low_priority_wrapper_dispatched_first :
    dispatchFirst [⟨scheduledPriority .high, 0⟩, ⟨scheduledPriority .low, 1⟩] =
      some ⟨scheduledPriority .low, 1⟩ ∧
    scheduledPriority .high ≠ scheduledPriority .low := by
  decide

/-- Every reservoir step keeps the level within `[0, 50]`. -/
theorem resStep_bounds (level : Int) (ev : ResEvent)
    (h0 : 0 ≤ level) (h1 : level ≤ 50) :
    0 ≤ resStep level ev ∧ resStep level ev ≤ 50 := by
  cases ev with
  | consume w =>
    simp only [resStep]
    split <;> omega
  | refresh =>
    simp [resStep, reservoirRefreshAmount]

/-- C8 (amended): across every sequence of admissions and refresh ticks
from the configured initial reservoir of 50, the level stays within
`[0, 50]`: admission only happens when the weight is covered, and the
refresh tick sets the level to 25 ≤ 50. -/
theorem C8_reservoir_level_bounded (evs : List ResEvent) :
    0 ≤ resRun reservoirInitial evs ∧ resRun reservoirInitial evs ≤ 50 := by
  have gen : ∀ (l : List ResEvent) (level : Int), 0 ≤ level → level ≤ 50 →
      0 ≤ resRun level l ∧ resRun level l ≤ 50 := by
    intro l
    induction l with
    | nil => intro level h0 h1; simpa [resRun] using ⟨h0, h1⟩
    | cons ev rest ih =>
      intro level h0 h1
      have hstep := resStep_bounds level ev h0 h1
      simpa [resRun, List.foldl_cons] using ih (resStep level ev) hstep.1 hstep.2
  exact gen evs reservoirInitial (by decide) (by decide)

/-- Witness for C8's amended bound at a concrete event sequence. -/
theorem C8_reservoir_level_bounded_witness :
    0 ≤ resRun reservoirInitial [.consume 1, .refresh, .consume 30] ∧
    resRun reservoirInitial [.consume 1, .refresh, .consume 30] ≤ 50 :=
  C8_reservoir_level_bounded [.consume 1, .refresh, .consume 30]

/-- C8 counterexample: the refill is NOT additive-then-capped.  After 26
unit admissions the level, reachable from the initial 50, is 24; the
refresh tick then sets it to 25, whereas an additive refill capped at
the ceiling would give `min (24 + 25) 50 = 49`. -/
theorem C8_refill_not_additive_capped :
    resRun reservoirInitial (List.replicate 26 (.consume 1)) = 24 ∧
    resStep 24 .refresh = 25 ∧
    specAdditiveCappedRefill reservoirInitial reservoirRefreshAmount 24 = 49 ∧
    resStep 24 .refresh ≠
      specAdditiveCappedRefill reservoirInitial reservoirRefreshAmount 24 := by
  refine ⟨by decide, by decide, by decide, by decide⟩

/-! ### Theorems about the bulk executors -/

/-- Fully fuelled chunks flatten back to the original list. -/
theorem chunksAux_flatten {α : Type} (n : Nat) (hn : 0 < n) :
    ∀ (fuel : Nat) (xs : List α), xs.length ≤ fuel →
      (chunksAux n fuel xs).flatten = xs := by
  intro fuel
  induction fuel with
  | zero =>
    intro xs h
    have hnil : xs = [] := List.eq_nil_of_length_eq_zero (by omega)
    rw [hnil]
    rfl
  | succ f ih =>
    intro xs h
    cases xs with
    | nil => rfl
    | cons x t =>
      have hdrop : ((x :: t).drop n).length ≤ f := by
        simp only [List.length_drop, List.length_cons]
        simp only [List.length_cons] at h
        omega
      rw [chunksAux, List.flatten_cons, ih _ hdrop, List.take_append_drop]

theorem chunksOf_flatten {α : Type} (n : Nat) (hn : 0 < n) (xs : List α) :
    (chunksOf n xs).flatten = xs :=
  chunksAux_flatten n hn xs.length xs (Nat.le_refl _)

/-- `filterMap` over per-chunk waves is `filterMap` over the whole
input. -/
theorem filterMap_chunks {α β : Type} (f : α → Option β) (xs : List α) :
    ((chunksOf 5 xs).map (List.filterMap f)).flatten = xs.filterMap f := by
  have h : ∀ L : List (List α),
      (L.map (List.filterMap f)).flatten = L.flatten.filterMap f := by
    intro L
    induction L with
    | nil => simp
    | cons hd tl ih =>
      simp only [List.map_cons, List.flatten_cons, List.filterMap_append, ih]
  rw [h, chunksOf_flatten 5 (by omega)]

/-- Each id lands in exactly one of the moved / failed lists, so their
lengths add to the input length. -/
theorem settled_lengths {β : Type} (move : String → Except String β)
    (l : List String) :
    (l.filterMap fun id => (move id).toOption).length +
      (l.filterMap (moveFailureOf move)).length = l.length := by
  induction l with
  | nil => simp
  | cons a t ih =>
    cases hfa : move a with
    | ok b =>
      simp only [List.filterMap_cons, hfa, Except.toOption, moveFailureOf,
        List.length_cons] at ih ⊢
      omega
    | error e =>
      simp only [List.filterMap_cons, hfa, Except.toOption, moveFailureOf,
        List.length_cons] at ih ⊢
      omega

/-- C3 counterexample: bulk card creation does not report a failed item
together with its error.  Two runs over the same two inputs, failing the
same card with different error messages, produce identical tool results
(and identical `createCard`-call counts), so the result cannot carry the
failure's error (it only logs it). -/
theorem C3_create_failures_not_reported :
    bulkCreateExecute
      (fun c => if c.name = "a" then .ok "cardA" else .error "E1")
      (fun _ => true) [⟨"a", none⟩, ⟨"b", none⟩] =
    bulkCreateExecute
      (fun c => if c.name = "a" then .ok "cardA" else .error "E2")
      (fun _ => true) [⟨"a", none⟩, ⟨"b", none⟩] ∧
    (if ("b" : String) = "a" then (Except.ok "cardA" : Except String String)
      else .error "E1") = .error "E1" ∧
    (if ("b" : String) = "a" then (Except.ok "cardA" : Except String String)
      else .error "E2") = .error "E2" ∧
    ("E1" : String) ≠ "E2" := by
  refine ⟨by rfl, by rfl, by rfl, by decide⟩

/-- C3 (amended): the bulk move tool reports each failed item paired
with its originating cardId and error message, next to the success list,
both counts (which sum to the total) and the rounded success ratio; the
bulk create tool reports only the created cards, the counts and the
ratio, with no per-item failure data. -/
theorem C3_bulk_outcome_reporting :
    (∀ (β : Type) (move : String → Except String β) (ids : List String),
      ids ≠ [] → ids.length ≤ 50 →
      ∃ r, bulkMoveExecute move ids = (.ok r, ids.length) ∧
        r.failures = ids.filterMap (moveFailureOf move) ∧
        r.moved = ids.filterMap (fun id => (move id).toOption) ∧
        r.successCount + r.failedCount = r.total ∧
        r.total = ids.length ∧
        r.successRatio = jsRound (100 * r.successCount) ids.length) ∧
    (∀ (β : Type) (create : CardInput → Except String β)
        (validDate : String → Bool) (cards : List CardInput),
      cards ≠ [] → cards.length ≤ 50 →
      validateCards validDate cards 0 = none →
      ∃ r, bulkCreateExecute create validDate cards = (.ok r, cards.length) ∧
        r.created = cards.filterMap (fun c => (create c).toOption) ∧
        r.successCount = r.created.length ∧
        r.failedCount = cards.length - r.successCount ∧
        r.total = cards.length ∧
        r.successRatio = jsRound (100 * r.successCount) cards.length) := by
  constructor
  · intro β move ids hne hle
    have hm : (bulkMoveOutcomes move ids).1 =
        ids.filterMap (fun id => (move id).toOption) := by
      simpa [bulkMoveOutcomes, settleMoveBatch] using
        filterMap_chunks (fun id => (move id).toOption) ids
    have hf : (bulkMoveOutcomes move ids).2 =
        ids.filterMap (moveFailureOf move) := by
      simpa [bulkMoveOutcomes, settleMoveBatch] using
        filterMap_chunks (moveFailureOf move) ids
    have hlen : ids.length ≠ 0 := by
      intro h; exact hne (List.eq_nil_of_length_eq_zero h)
    refine ⟨⟨(bulkMoveOutcomes move ids).1, (bulkMoveOutcomes move ids).2,
      (bulkMoveOutcomes move ids).1.length, (bulkMoveOutcomes move ids).2.length,
      ids.length,
      jsRound (100 * (bulkMoveOutcomes move ids).1.length) ids.length⟩,
      ?_, ?_, ?_, ?_, ?_, ?_⟩
    · rw [bulkMoveExecute, if_neg hlen, if_neg (by omega)]
    · exact hf
    · exact hm
    · show (bulkMoveOutcomes move ids).1.length +
        (bulkMoveOutcomes move ids).2.length = ids.length
      rw [hm, hf]
      exact settled_lengths move ids
    · rfl
    · rfl
  · intro β create validDate cards hne hle hval
    have hlen : cards.length ≠ 0 := by
      intro h; exact hne (List.eq_nil_of_length_eq_zero h)
    have hc : bulkCreateCards create cards =
        cards.filterMap (fun c => (create c).toOption) := by
      simpa [bulkCreateCards, settleCreateBatch] using
        filterMap_chunks (fun c => (create c).toOption) cards
    refine ⟨⟨bulkCreateCards create cards, (bulkCreateCards create cards).length,
      cards.length - (bulkCreateCards create cards).length, cards.length,
      jsRound (100 * (bulkCreateCards create cards).length) cards.length⟩,
      ?_, ?_, ?_, ?_, ?_, ?_⟩
    · rw [bulkCreateExecute, if_neg hlen, if_neg (by omega), hval]
    · exact hc
    · rfl
    · rfl
    · rfl
    · rfl

/-- Witness for C3's amended statement: a concrete move batch with one
failure and a concrete create batch. -/
theorem C3_bulk_outcome_reporting_witness :
    (∃ r, bulkMoveExecute
        (fun id => if id = "x" then (.ok 1 : Except String Nat)
          else .error "gone") ["x", "y"] = (.ok r, (["x", "y"]).length) ∧
      r.failures = (["x", "y"]).filterMap
        (moveFailureOf (fun id => if id = "x" then (.ok 1 : Except String Nat)
          else .error "gone")) ∧
      r.moved = (["x", "y"]).filterMap (fun id =>
        (if id = "x" then (.ok 1 : Except String Nat)
          else .error "gone").toOption) ∧
      r.successCount + r.failedCount = r.total ∧
      r.total = (["x", "y"]).length ∧
      r.successRatio = jsRound (100 * r.successCount) (["x", "y"]).length) ∧
    (∃ r, bulkCreateExecute
        (fun c => (.ok c.name : Except String String)) (fun _ => true)
        [⟨"a", none⟩] = (.ok r, ([(⟨"a", none⟩ : CardInput)]).length) ∧
      r.created = ([(⟨"a", none⟩ : CardInput)]).filterMap
        (fun c => (.ok c.name : Except String String).toOption) ∧
      r.successCount = r.created.length ∧
      r.failedCount = ([(⟨"a", none⟩ : CardInput)]).length - r.successCount ∧
      r.total = ([(⟨"a", none⟩ : CardInput)]).length ∧
      r.successRatio = jsRound (100 * r.successCount)
        ([(⟨"a", none⟩ : CardInput)]).length) :=
  ⟨C3_bulk_outcome_reporting.1 Nat
      (fun id => if id = "x" then .ok 1 else .error "gone") ["x", "y"]
      (by decide) (by decide),
   C3_bulk_outcome_reporting.2 String
      (fun c => .ok c.name) (fun _ => true) [⟨"a", none⟩]
      (by decide) (by decide) (by decide)⟩

/-- C5: a bulk input of more than 50 items is rejected up front with the
cap error, with zero transport calls made, by both the bulk create tool
and the bulk move tool. -/
theorem C5_batch_cap_rejects_without_transport {β γ : Type}
    (create : CardInput → Except String β) (validDate : String → Bool)
    (cards : List CardInput) (move : String → Except String γ)
    (ids : List String)
    (hc : 50 < cards.length) (hi : 50 < ids.length) :
    bulkCreateExecute create validDate cards =
      (.err "Tek seferde en fazla 50 kart oluşturabilirsiniz", 0) ∧
    bulkMoveExecute move ids =
      (.err "Tek seferde en fazla 50 kart taşıyabilirsiniz", 0) := by
  constructor
  · rw [bulkCreateExecute, if_neg (by omega), if_pos hc]
  · rw [bulkMoveExecute, if_neg (by omega), if_pos hi]

/-- Witness for C5: 51 identical cards and 51 ids are both rejected with
no transport call. -/
theorem C5_batch_cap_rejects_without_transport_witness :
    bulkCreateExecute (fun _ => (.error "never called" : Except String Unit))
      (fun _ => true) (List.replicate 51 ⟨"c", none⟩) =
      (.err "Tek seferde en fazla 50 kart oluşturabilirsiniz", 0) ∧
    bulkMoveExecute (fun _ => (.error "never called" : Except String Unit))
      (List.replicate 51 "id") =
      (.err "Tek seferde en fazla 50 kart taşıyabilirsiniz", 0) :=
  C5_batch_cap_rejects_without_transport
    (fun _ => .error "never called") (fun _ => true)
    (List.replicate 51 ⟨"c", none⟩)
    (fun _ => .error "never called") (List.replicate 51 "id")
    (by simp) (by simp)

end TrelloMCP
